import Mathlib

/-!
Verification of the Melo backend's NLP engine (`src/nlp_engine.py`) against
its natural-language specification.

The engine in `src/nlp_engine.py` wires an external text-classification
model (`EmotionDetector.detect_emotion`) to a rule-based response generator
(`ResponseGenerator.generate_response`) through `analyze_and_respond`.

Modelling choices:
* Python strings are Lean `String`s; `str.lower()` is per-character
  lowering (`pyLower`); `needle in hay` is `strHasSub hay needle`.
* The external HuggingFace classifier is an opaque parameter
  `classify : String → Except Unit (List Prediction)`; `Except.error` stands for
  any exception raised inside the `try` block of `detect_emotion`
  (model failure, timeout, malformed output), and an `ok []` result makes
  `emotions[0]` raise `IndexError`, caught by the same handler.
* `random.choice(seq)` draws a uniform index into `seq`; it is modelled by
  an explicit draw `r : Nat` selecting `seq[r % len(seq)]`.  One call to
  `generate_response` makes up to two draws (response, coping strategy),
  passed as `rr` and `rc`.
* Python floats carry classifier probabilities that the engine only passes
  through, never computes with, so scores are modelled as `ℚ`.
-/

/-- Python's `needle matches at the head of hay` helper for substring search. -/
def headMatch : List Char → List Char → Bool
  | [], _ => true
  | _ :: _, [] => false
  | a :: as, b :: bs => a == b && headMatch as bs

/-- Python's `needle in hay` on character lists: some suffix of `hay` starts
with `needle`. -/
def subList (needle : List Char) : List Char → Bool
  | [] => headMatch needle []
  | b :: bs => headMatch needle (b :: bs) || subList needle bs

/-- Python's substring containment `needle in hay` on strings. -/
def strHasSub (hay needle : String) : Bool :=
  subList needle.toList hay.toList

/-- Python's `str.lower()`: lower-case every character. -/
def pyLower (s : String) : String :=
  String.mk (s.toList.map Char.toLower)

/-- Python's `not text or not text.strip()` guard in `detect_emotion`:
true when the text is empty or consists only of whitespace. -/
def isBlankText (s : String) : Bool :=
  s.toList.all Char.isWhitespace

/-- One classifier prediction `{'label': ..., 'score': ...}`. -/
structure Prediction where
  label : String
  score : ℚ

/-- The dict returned by `EmotionDetector.detect_emotion`. -/
structure EmotionResult where
  primary_emotion : String
  confidence : ℚ
  all_emotions : List Prediction

/-- `EmotionDetector.detect_emotion` (src/nlp_engine.py lines 41-83):
blank input short-circuits to Neutral/1.0; a classifier exception or an
empty prediction list falls back to Neutral/0.5; otherwise the top
prediction becomes the primary emotion. -/
def detect_emotion (classify : String → Except Unit (List Prediction))
    (text : String) : EmotionResult :=
  if isBlankText text then
    ⟨"Neutral", 1, [⟨"Neutral", 1⟩]⟩
  else
    match classify text with
    | .error _ => ⟨"Neutral", 1/2, [⟨"Neutral", 1/2⟩]⟩
    | .ok [] => ⟨"Neutral", 1/2, [⟨"Neutral", 1/2⟩]⟩
    | .ok (p :: rest) => ⟨p.label, p.score, p :: rest⟩

/-- The crisis keyword list of `ResponseGenerator.generate_response`
(src/nlp_engine.py line 230). -/
def crisis_keywords : List String :=
  ["suicide", "kill myself", "end it all", "don't want to live",
   "harm myself", "hurt myself", "die"]

/-- The fixed resource-listing crisis reply (src/nlp_engine.py lines 236-242). -/
def CRISIS_RESPONSE : String :=
  "I'm really concerned about what you're sharing. Your safety is the top priority. Please reach out to a crisis helpline immediately:\n\n🆘 National Suicide Prevention Lifeline: 988 (US)\n🆘 Crisis Text Line: Text HOME to 741741\n🆘 International: findahelpline.com\n\nPlease talk to a trained professional who can provide immediate help. Your life matters."

/-- `ResponseGenerator.EMOTION_RESPONSES` (src/nlp_engine.py lines 93-172). -/
def EMOTION_RESPONSES : List (String × List String) :=
  [("Sadness",
    ["I can sense you're feeling down. It's completely okay to feel sad sometimes. Would you like to talk about what's bothering you?",
     "I hear you, and I'm here for you. Sadness is a natural emotion. What's weighing on your heart right now?",
     "I'm sorry you're going through a difficult time. Remember, it's okay to feel sad. I'm here to listen.",
     "Your feelings are valid. Sometimes we need to acknowledge sadness before we can move forward. Want to share more?"]),
   ("Anger",
    ["I understand you're feeling frustrated. It's okay to feel angry. Let's talk through what's making you feel this way.",
     "Anger is a valid emotion. Would you like to share what's triggering these feelings? I'm here to listen without judgment.",
     "I can tell something is really bothering you. Taking a few deep breaths might help. What's going on?",
     "It sounds like you're dealing with something really frustrating. I'm here to help you work through it."]),
   ("Fear",
    ["I hear the worry in your message. Fear can feel overwhelming, but you're not alone. What's making you feel anxious?",
     "It's brave of you to acknowledge your fears. Let's explore what's causing this anxiety together.",
     "Feeling afraid is completely natural. Would you like to talk about what's worrying you?",
     "I understand fear can be paralyzing. Remember to breathe. I'm here to support you through this."]),
   ("Happiness",
    ["It's wonderful to hear such positive energy from you! What's bringing you joy today?",
     "Your happiness is contagious! I'm so glad you're feeling good. Tell me more!",
     "That's fantastic! It's great to see you in such high spirits. What's going well?",
     "I love your positive energy! Celebrating the good moments is so important. What made your day?"]),
   ("Love",
    ["That's beautiful! Love is such a powerful emotion. It's wonderful that you're experiencing it.",
     "How heartwarming! Love brings so much light into our lives. Tell me more about what you're feeling.",
     "That's lovely to hear! Expressing love and appreciation is so important. Who or what are you feeling grateful for?",
     "What a beautiful sentiment! Love in all its forms enriches our lives."]),
   ("Surprise",
    ["Oh wow! That sounds unexpected! How are you processing this surprise?",
     "Life certainly keeps us on our toes! How do you feel about this unexpected turn?",
     "That must have caught you off guard! Tell me more about what happened.",
     "Surprises can be quite something! How are you handling this unexpected situation?"]),
   ("Neutral",
    ["I'm listening. Feel free to share whatever's on your mind.",
     "I'm here for you. What would you like to talk about today?",
     "Tell me more about what's going on. I'm here to listen and support you.",
     "I'm all ears. What brings you here today?"]),
   ("Disgust",
    ["I can tell something is really bothering you. Your feelings are completely valid.",
     "That must be really unpleasant to deal with. Would you like to talk about it?",
     "I understand this is difficult for you. Let's work through these feelings together.",
     "It's okay to feel repulsed by things. Your reactions are natural and valid."]),
   ("Shame",
    ["Please know that everyone makes mistakes. You're being very brave by acknowledging these feelings.",
     "Shame can be such a heavy burden. Remember, you deserve compassion and understanding, especially from yourself.",
     "I appreciate you sharing this with me. It takes courage to confront feelings of shame.",
     "You are not defined by your past mistakes. Let's talk about moving forward with self-compassion."]),
   ("Guilt",
    ["Guilt shows you care about doing the right thing. Let's explore what you're feeling guilty about.",
     "It's important to acknowledge guilt, but also to forgive yourself. What's troubling you?",
     "Feeling guilty can be painful. Would you like to talk through what happened?",
     "Your conscience is speaking to you. Let's work through these feelings together."]),
   ("Confusion",
    ["It's okay to feel uncertain. Let's try to untangle what's confusing you.",
     "Confusion is often the first step to clarity. What's puzzling you right now?",
     "I'm here to help you make sense of things. Tell me what's unclear.",
     "Feeling lost is completely normal. Let's work through this together, one step at a time."]),
   ("Desire",
    ["It's great that you know what you want! Tell me more about your aspirations.",
     "Desire and ambition can be powerful motivators. What are you hoping to achieve?",
     "I hear your passion! What steps can you take toward what you want?",
     "Your enthusiasm is wonderful! Let's explore how you can work toward your goals."]),
   ("Sarcasm",
    ["I detect some sarcasm there! Sometimes humor helps us cope. What's really on your mind?",
     "I appreciate your wit! But let's dig a bit deeper - how are you really feeling?",
     "Humor can be a shield. I'm here when you're ready to talk about what's underneath.",
     "I hear you! But I'd love to understand what you're truly feeling right now."])]

/-- `ResponseGenerator.COPING_STRATEGIES` (src/nlp_engine.py lines 175-206). -/
def COPING_STRATEGIES : List (String × List String) :=
  [("Sadness",
    ["💙 Try the 5-4-3-2-1 grounding technique: Name 5 things you see, 4 you can touch, 3 you hear, 2 you smell, and 1 you taste.",
     "💙 Gentle exercise like a short walk can help lift your mood.",
     "💙 Reach out to someone you trust. Connection can be healing.",
     "💙 Allow yourself to feel - sometimes we need to sit with sadness before it passes."]),
   ("Anger",
    ["🔥 Try box breathing: Breathe in for 4 counts, hold for 4, exhale for 4, hold for 4.",
     "🔥 Physical activity can help release angry energy safely.",
     "🔥 Write down your feelings without censoring yourself.",
     "🔥 Count backwards from 100 to give yourself time to cool down."]),
   ("Fear",
    ["🌟 Practice progressive muscle relaxation: tense and release each muscle group.",
     "🌟 Challenge anxious thoughts: What evidence supports and contradicts your worry?",
     "🌟 Stay present with deep breathing exercises.",
     "🌟 Remember: You've overcome challenges before, and you can do it again."]),
   ("Shame",
    ["💚 Practice self-compassion: Speak to yourself as you would a dear friend.",
     "💚 Remember that mistakes are part of being human.",
     "💚 Write yourself a forgiveness letter.",
     "💚 Focus on growth rather than perfection."]),
   ("Guilt",
    ["💜 Make amends if possible and appropriate.",
     "💜 Practice self-forgiveness meditation.",
     "💜 Learn from the experience and commit to different choices.",
     "💜 Remember: You are more than your mistakes."])]

/-- The crisis test of `generate_response`:
`any(keyword in user_message.lower() for keyword in crisis_keywords)`. -/
def crisisCheck (user_message : String) : Bool :=
  crisis_keywords.any (fun keyword => strHasSub (pyLower user_message) keyword)

/-- The dict returned by `ResponseGenerator.generate_response`. -/
structure GenResult where
  response : String
  coping_strategy : Option String
  needs_escalation : Bool

/-- `random.choice(seq)` given the uniform index draw `r`. -/
def pyChoice (r : Nat) (seq : List String) : String :=
  seq.getD (r % seq.length) ""

/-- The response template list used for an emotion:
`EMOTION_RESPONSES.get(emotion, EMOTION_RESPONSES['Neutral'])`. -/
def responsesFor (emotion : String) : List String :=
  match List.lookup emotion EMOTION_RESPONSES with
  | some rs => rs
  | none =>
    match List.lookup "Neutral" EMOTION_RESPONSES with
    | some rs => rs
    | none => []

/-- `ResponseGenerator.generate_response` (src/nlp_engine.py lines 213-260).
`rr` and `rc` are the two `random.choice` draws. -/
def generate_response (rr rc : Nat) (emotion : String) (confidence : ℚ)
    (user_message : String) : GenResult :=
  let needs_escalation := crisisCheck user_message
  if needs_escalation then
    ⟨CRISIS_RESPONSE, none, true⟩
  else
    let responses := responsesFor emotion
    let response := pyChoice rr responses
    let coping_strategy :=
      (List.lookup emotion COPING_STRATEGIES).map (pyChoice rc)
    ⟨response, coping_strategy, false⟩

/-- The dict returned by `analyze_and_respond`. -/
structure AnalyzeResult where
  emotion : String
  confidence : ℚ
  all_emotions : List Prediction
  response : String
  coping_strategy : Option String
  needs_escalation : Bool

/-- `analyze_and_respond` (src/nlp_engine.py lines 274-306): detect the
emotion, then generate the response, and assemble the combined dict. -/
def analyze_and_respond (classify : String → Except Unit (List Prediction))
    (rr rc : Nat) (user_message : String) : AnalyzeResult :=
  let emotion_result := detect_emotion classify user_message
  let response_data :=
    generate_response rr rc emotion_result.primary_emotion
      emotion_result.confidence user_message
  ⟨emotion_result.primary_emotion, emotion_result.confidence,
   emotion_result.all_emotions, response_data.response,
   response_data.coping_strategy, response_data.needs_escalation⟩

/-!
The specification (spec.md §2-§4) covers the repository's lexicon-based
engine variant (keyword-weighted scoring plus intensity-tiered selection).
That variant's source is not among the files under `src/` — only the
transformer-based `nlp_engine.py` is — so the lexicon engine is modelled
below directly from the spec's words (§3 data model, §4.1-§4.3 algorithms)
and the spec-level claims are settled against this model.
-/

/-- Modelled from the spec: one emotion's phrase tiers in the
`EmotionLexicon` (§3) — `strong`, `medium`, `weak`, plus an optional
`context` tier of multi-word contextual phrases. -/
structure LexTiers where
  strong : List String
  medium : List String
  weak : List String
  context : List String

/-- Modelled from the spec: the ephemeral `ScoredEmotion` (§3):
`{label, rawScore, signalCount}`. -/
structure ScoredEmotion where
  label : String
  rawScore : Nat
  signalCount : Nat

/-- Modelled from the spec: the number of phrases of one tier matched as
substrings of the lowered text (§4.2 step 2). -/
def matchCount (phrases : List String) (lowered : String) : Nat :=
  (phrases.filter (fun p => strHasSub lowered p)).length

/-- Modelled from the spec: `rawScore` = sum over matched phrases of tier
weight, strong=3, medium=2, weak=1, context=2 (§3). -/
def tierScore (t : LexTiers) (lowered : String) : Nat :=
  3 * matchCount t.strong lowered + 2 * matchCount t.medium lowered +
    1 * matchCount t.weak lowered + 2 * matchCount t.context lowered

/-- Modelled from the spec: `signalCount` = count of distinct phrases
matched (§3). -/
def tierSignals (t : LexTiers) (lowered : String) : Nat :=
  matchCount t.strong lowered + matchCount t.medium lowered +
    matchCount t.weak lowered + matchCount t.context lowered

/-- Modelled from the spec: `scoreEmotions` (§4.2 steps 1-2): lower-case the
text once, then accumulate weighted score and signal count per emotion over
the fixed, ordered lexicon. -/
def scoreEmotions (lexicon : List (String × LexTiers)) (text : String) :
    List ScoredEmotion :=
  let lowered := pyLower text
  lexicon.map (fun e => ⟨e.1, tierScore e.2 lowered, tierSignals e.2 lowered⟩)

/-- Modelled from the spec: primary emotion = the emotion with the maximum
`rawScore`, ties broken by the first emotion reaching the maximum in lexicon
iteration order (§4.2 step 3); when every score is 0 this is the Neutral
starting point of step 4. -/
def pickPrimary (scored : List ScoredEmotion) : ScoredEmotion :=
  scored.foldl (fun best s => if best.rawScore < s.rawScore then s else best)
    ⟨"Neutral", 0, 0⟩

/-- Modelled from the spec: `isCrisis` (§4.1): lower-cases the input and
returns true if any `CrisisLexicon` phrase occurs as a substring. -/
def isCrisis (crisisLexicon : List String) (text : String) : Bool :=
  crisisLexicon.any (fun p => strHasSub (pyLower text) p)

/-- Modelled from the spec: confidence
`min(baseOffset + rawScore * scoreGain, confidenceCap)` (§4.2 step 5), at
the spec's observed tuning `baseOffset=0.5`, `scoreGain=0.08`,
`confidenceCap=0.98`. -/
def specConfidence (rawScore : Nat) : ℚ :=
  min (1/2 + rawScore * (8/100)) (98/100)

/-- Modelled from the spec: intensity tier bucketing (§4.2 step 7): `weak`
if rawScore < 2, `medium` if rawScore < 5, else `strong`. -/
def intensityTier (rawScore : Nat) : String :=
  if rawScore < 2 then "weak" else if rawScore < 5 then "medium" else "strong"

/-- Modelled from the spec: `allEmotions` (§4.2 step 6): every emotion with
score > 0, normalized by the fixed divisor 10.0, sorted descending by
score, truncated to top 3. -/
def normalizedEmotions (scored : List ScoredEmotion) : List (String × ℚ) :=
  (((scored.filter (fun s => decide (0 < s.rawScore))).mergeSort
      (fun s t => decide (t.rawScore ≤ s.rawScore))).map
    (fun s => (s.label, (s.rawScore : ℚ) / 10))).take 3

/-- Modelled from the spec: the static configuration of the lexicon engine
(§3, §4.3): emotion lexicon, crisis lexicon, fixed crisis reply, response
table (weak/medium/strong template per emotion), coping table
(medium/strong suggestion per emotion), and the default empathetic neutral
template. -/
structure SpecConfig where
  lexicon : List (String × LexTiers)
  crisisLexicon : List String
  crisisReply : String
  responseTable : List (String × (String × String × String))
  copingTable : List (String × (String × String))
  defaultResponse : String

/-- Modelled from the spec: response selection (§4.3) without caller
context: the intensity-tier template for the emotion, or the default
empathetic neutral template when the emotion has no templates. -/
def specResponse (cfg : SpecConfig) (emotion : String) (rawScore : Nat) :
    String :=
  match List.lookup emotion cfg.responseTable with
  | none => cfg.defaultResponse
  | some (w, m, s) => if rawScore < 2 then w else if rawScore < 5 then m else s

/-- Modelled from the spec: coping selection (§4.3): no suggestion when
intensity is weak / rawScore < 2; otherwise the medium or strong suggestion
for the emotion, none when the emotion has no entry. -/
def specCoping (cfg : SpecConfig) (emotion : String) (rawScore : Nat) :
    Option String :=
  if rawScore < 2 then none
  else
    match List.lookup emotion cfg.copingTable with
    | none => none
    | some (m, s) => some (if rawScore < 5 then m else s)

/-- Modelled from the spec: the `AnalysisResult` (§3) produced by the
lexicon engine. -/
structure SpecResult where
  emotion : String
  confidence : ℚ
  intensity : Nat
  allEmotions : List (String × ℚ)
  response : String
  copingStrategy : Option String
  needsEscalation : Bool

/-- Modelled from the spec: the full lexicon pipeline
`analyze(message) -> AnalysisResult` (§2, §4, §6): crisis check first
(short-circuiting to the fixed Crisis result), then the Neutral
short-circuit when the maximum score is 0 (§4.2 step 4, also covering
empty input, §7a), else the scored result with confidence, intensity,
normalized `allEmotions`, and response/coping selection. -/
def analyzeSpec (cfg : SpecConfig) (text : String) : SpecResult :=
  if isCrisis cfg.crisisLexicon text then
    ⟨"Crisis", 1, 0, [], cfg.crisisReply, none, true⟩
  else
    let scored := scoreEmotions cfg.lexicon text
    let primary := pickPrimary scored
    if primary.rawScore = 0 then
      ⟨"Neutral", 1/2, 0, [], specResponse cfg "Neutral" 0, none, false⟩
    else
      ⟨primary.label, specConfidence primary.rawScore, primary.rawScore,
       normalizedEmotions scored, specResponse cfg primary.label primary.rawScore,
       specCoping cfg primary.label primary.rawScore, false⟩

/-- A small concrete configuration of the spec-modelled engine, used by the
witnesses (the spec treats the lexicon as arbitrary configuration data). -/
def sampleConfig : SpecConfig :=
  { lexicon :=
      [("Sadness", ⟨["devastated", "hopeless"], ["sad", "unhappy"], ["blue"],
         ["lost someone"]⟩),
       ("Anger", ⟨["furious", "livid"], ["angry", "mad"], ["annoyed"],
         ["fed up"]⟩),
       ("Fear", ⟨["terrified", "panicking"], ["afraid", "anxious"], ["uneasy"],
         ["scared of"]⟩)],
    crisisLexicon := crisis_keywords,
    crisisReply := CRISIS_RESPONSE,
    responseTable :=
      [("Sadness", ("S weak reply", "S medium reply", "S strong reply")),
       ("Anger", ("A weak reply", "A medium reply", "A strong reply")),
       ("Fear", ("F weak reply", "F medium reply", "F strong reply"))],
    copingTable :=
      [("Sadness", ("S medium coping", "S strong coping")),
       ("Anger", ("A medium coping", "A strong coping")),
       ("Fear", ("F medium coping", "F strong coping"))],
    defaultResponse := "I'm listening. Feel free to share whatever's on your mind." }

/-- The set of replies `generate_response` can produce for a detected
emotion and message: the fixed crisis reply on a crisis message, otherwise
the fixed template list for the emotion (Neutral templates as fallback). -/
def allowedResponses (emotion user_message : String) : List String :=
  if crisisCheck user_message then [CRISIS_RESPONSE] else responsesFor emotion

/-- The set of coping-strategy values `generate_response` can produce for a
detected emotion and message: `none`, or one of the fixed coping templates
for the emotion (never on a crisis message). -/
def allowedCopings (emotion user_message : String) : List (Option String) :=
  if crisisCheck user_message then [none]
  else none :: (((List.lookup emotion COPING_STRATEGIES).getD []).map some)

theorem lookup_mem_snd {β : Type} {a : String} {l : List (String × β)} {b : β}
    (h : List.lookup a l = some b) : b ∈ l.map Prod.snd := by
  obtain ⟨l₁, l₂, rfl, -⟩ := List.lookup_eq_some_iff.1 h
  simp

theorem pyChoice_mem (r : Nat) (l : List String) (h : l ≠ []) :
    pyChoice r l ∈ l := by
  have hpos : 0 < l.length := List.length_pos.2 h
  have hlt : r % l.length < l.length := Nat.mod_lt _ hpos
  rw [pyChoice, List.getD_eq_getElem l _ hlt]
  exact List.getElem_mem hlt

theorem responsesFor_ne_nil (e : String) : responsesFor e ≠ [] := by
  rw [responsesFor]
  cases h : List.lookup e EMOTION_RESPONSES with
  | none => decide
  | some rs =>
    have hmem : rs ∈ EMOTION_RESPONSES.map Prod.snd := lookup_mem_snd h
    have hne : ∀ v ∈ EMOTION_RESPONSES.map Prod.snd, v ≠ [] := by decide
    simpa using hne rs hmem

theorem copingFor_ne_nil (e : String) (l : List String)
    (h : List.lookup e COPING_STRATEGIES = some l) : l ≠ [] := by
  have hmem : l ∈ COPING_STRATEGIES.map Prod.snd := lookup_mem_snd h
  have hne : ∀ v ∈ COPING_STRATEGIES.map Prod.snd, v ≠ [] := by decide
  exact hne l hmem

theorem generate_response_escalation (rr rc : Nat) (e : String) (c : ℚ)
    (msg : String) :
    (generate_response rr rc e c msg).needs_escalation = crisisCheck msg := by
  rw [generate_response]
  by_cases h : crisisCheck msg <;> simp [h]

theorem generate_response_mem (rr rc : Nat) (e : String) (c : ℚ)
    (msg : String) :
    (generate_response rr rc e c msg).response ∈ allowedResponses e msg ∧
    (generate_response rr rc e c msg).coping_strategy ∈ allowedCopings e msg := by
  rw [generate_response, allowedResponses, allowedCopings]
  by_cases h : crisisCheck msg
  · simp [h]
  · simp only [h, Bool.false_eq_true, if_false]
    constructor
    · simpa using pyChoice_mem rr _ (responsesFor_ne_nil e)
    · cases hc : List.lookup e COPING_STRATEGIES with
      | none => simp [hc]
      | some l =>
        simp only [hc, Option.map_some, Option.getD_some, List.mem_cons]
        exact Or.inr (List.mem_map_of_mem some (pyChoice_mem rc l (copingFor_ne_nil e l hc)))

/-- C1: for every input text containing at least one crisis phrase as a
case-insensitive substring, the analyze pipeline returns
`needs_escalation = true`, `coping_strategy = none`, and the fixed
resource-listing crisis reply, regardless of any other emotional content
(i.e. for every classifier output and every random draw). -/
theorem crisis_phrase_forces_escalation_reply
    (classify : String → Except Unit (List Prediction)) (rr rc : Nat)
    (msg : String)
    (h : ∃ k ∈ crisis_keywords, strHasSub (pyLower msg) k = true) :
    (analyze_and_respond classify rr rc msg).needs_escalation = true ∧
    (analyze_and_respond classify rr rc msg).coping_strategy = none ∧
    (analyze_and_respond classify rr rc msg).response = CRISIS_RESPONSE := by
  have hc : crisisCheck msg = true := by
    rw [crisisCheck, List.any_eq_true]
    simpa using h
  simp [analyze_and_respond, generate_response, hc]

/-- Witness for C1 at the concrete crisis message "I want to kill myself",
with a failing classifier and zero random draws. -/
theorem crisis_phrase_forces_escalation_reply_witness :
    (∃ k ∈ crisis_keywords,
      strHasSub (pyLower "I want to kill myself") k = true) ∧
    ((analyze_and_respond (fun _ => Except.error ()) 0 0
        "I want to kill myself").needs_escalation = true ∧
     (analyze_and_respond (fun _ => Except.error ()) 0 0
        "I want to kill myself").coping_strategy = none ∧
     (analyze_and_respond (fun _ => Except.error ()) 0 0
        "I want to kill myself").response = CRISIS_RESPONSE) :=
  ⟨by decide, crisis_phrase_forces_escalation_reply _ 0 0 _ (by decide)⟩

/-- C10: `needs_escalation` in the returned result is true exactly when
some crisis keyword occurs as a substring of the lower-cased user message;
in particular it is false for every message containing none. -/
theorem needs_escalation_iff_crisis_substring
    (classify : String → Except Unit (List Prediction)) (rr rc : Nat)
    (msg : String) :
    ((analyze_and_respond classify rr rc msg).needs_escalation = true ↔
      ∃ k ∈ crisis_keywords, strHasSub (pyLower msg) k = true) := by
  have heq : (analyze_and_respond classify rr rc msg).needs_escalation
      = crisisCheck msg := by
    simpa [analyze_and_respond] using
      generate_response_escalation rr rc
        (detect_emotion classify msg).primary_emotion
        (detect_emotion classify msg).confidence msg
  rw [heq, crisisCheck, List.any_eq_true]

/-- C2 counterexample: on the crisis input "I want to kill myself" the
engine does not return `emotion = "Crisis"` nor `confidence = 1.0`, and the
classifier (emotion scoring) is executed rather than short-circuited: its
output changes the returned emotion even on a crisis input.  Shown with a
failing classifier (the engine's own fallback path) and with a classifier
returning Sadness. -/
theorem crisis_input_not_labeled_crisis_cex :
    (analyze_and_respond (fun _ => Except.error ()) 0 0
        "I want to kill myself").emotion ≠ "Crisis" ∧
    (analyze_and_respond (fun _ => Except.error ()) 0 0
        "I want to kill myself").confidence ≠ 1 ∧
    (analyze_and_respond (fun _ => Except.ok [⟨"Sadness", 9/10⟩]) 0 0
        "I want to kill myself").emotion ≠
      (analyze_and_respond (fun _ => Except.error ()) 0 0
        "I want to kill myself").emotion := by
  refine ⟨by decide, ?_, by decide⟩
  have h : (analyze_and_respond (fun _ => Except.error ()) 0 0
      "I want to kill myself").confidence = 1/2 := by
    have hb : isBlankText "I want to kill myself" = false := by decide
    simp [analyze_and_respond, detect_emotion, hb]
  rw [h]
  norm_num

/-- C2 amended: for every input containing a crisis phrase the engine
returns `needs_escalation = true`, `coping_strategy = none` and the fixed
crisis reply, but emotion detection is executed first and is not
short-circuited: the returned `emotion` and `confidence` are whatever
`detect_emotion` produced (never a dedicated "Crisis" label). -/
theorem crisis_overrides_response_fields_only
    (classify : String → Except Unit (List Prediction)) (rr rc : Nat)
    (msg : String)
    (h : ∃ k ∈ crisis_keywords, strHasSub (pyLower msg) k = true) :
    (analyze_and_respond classify rr rc msg).needs_escalation = true ∧
    (analyze_and_respond classify rr rc msg).coping_strategy = none ∧
    (analyze_and_respond classify rr rc msg).response = CRISIS_RESPONSE ∧
    (analyze_and_respond classify rr rc msg).emotion
      = (detect_emotion classify msg).primary_emotion ∧
    (analyze_and_respond classify rr rc msg).confidence
      = (detect_emotion classify msg).confidence := by
  have hc : crisisCheck msg = true := by
    rw [crisisCheck, List.any_eq_true]
    simpa using h
  exact ⟨by simp [analyze_and_respond, generate_response, hc],
    by simp [analyze_and_respond, generate_response, hc],
    by simp [analyze_and_respond, generate_response, hc], rfl, rfl⟩

/-- Witness for the amended C2 at "I just want to end it all" with a
classifier returning Fear. -/
theorem crisis_overrides_response_fields_only_witness :
    (∃ k ∈ crisis_keywords,
      strHasSub (pyLower "I just want to end it all") k = true) ∧
    ((analyze_and_respond (fun _ => Except.ok [⟨"Fear", 3/4⟩]) 1 2
        "I just want to end it all").needs_escalation = true ∧
     (analyze_and_respond (fun _ => Except.ok [⟨"Fear", 3/4⟩]) 1 2
        "I just want to end it all").coping_strategy = none ∧
     (analyze_and_respond (fun _ => Except.ok [⟨"Fear", 3/4⟩]) 1 2
        "I just want to end it all").response = CRISIS_RESPONSE ∧
     (analyze_and_respond (fun _ => Except.ok [⟨"Fear", 3/4⟩]) 1 2
        "I just want to end it all").emotion
       = (detect_emotion (fun _ => Except.ok [⟨"Fear", 3/4⟩])
           "I just want to end it all").primary_emotion ∧
     (analyze_and_respond (fun _ => Except.ok [⟨"Fear", 3/4⟩]) 1 2
        "I just want to end it all").confidence
       = (detect_emotion (fun _ => Except.ok [⟨"Fear", 3/4⟩])
           "I just want to end it all").confidence) :=
  ⟨by decide, crisis_overrides_response_fields_only _ 1 2 _ (by decide)⟩

/-- C4: for empty input text the engine short-circuits to the Neutral
result without invoking the classifier: `detect_emotion` returns the fixed
Neutral dict, its output is independent of the classifier, and the
pipeline's emotion is "Neutral".  (Python's `None` input is subsumed by the
same `not text` guard; Lean strings are never null.) -/
theorem blank_input_short_circuits
    (classify₁ classify₂ : String → Except Unit (List Prediction))
    (rr rc : Nat) (msg : String) (h : msg = "") :
    detect_emotion classify₁ msg = ⟨"Neutral", 1, [⟨"Neutral", 1⟩]⟩ ∧
    detect_emotion classify₁ msg = detect_emotion classify₂ msg ∧
    (analyze_and_respond classify₁ rr rc msg).emotion = "Neutral" := by
  subst h
  have hb : isBlankText "" = true := by decide
  refine ⟨?_, ?_, ?_⟩ <;> simp [detect_emotion, analyze_and_respond, hb]

/-- Witness for C4 at the empty string. -/
theorem blank_input_short_circuits_witness :
    ("" : String) = "" ∧
    (detect_emotion (fun _ => Except.ok [⟨"Anger", 1/2⟩]) ""
        = ⟨"Neutral", 1, [⟨"Neutral", 1⟩]⟩ ∧
     detect_emotion (fun _ => Except.ok [⟨"Anger", 1/2⟩]) ""
        = detect_emotion (fun _ => Except.error ()) "" ∧
     (analyze_and_respond (fun _ => Except.ok [⟨"Anger", 1/2⟩]) 0 0 "").emotion
        = "Neutral") :=
  ⟨rfl, blank_input_short_circuits _ _ 0 0 "" rfl⟩

/-- C7: every classifier failure (exception in the `try` block: timeout,
network, malformed output) is caught locally inside `detect_emotion`, which
degrades to the fixed Neutral/0.5 fallback, so `analyze_and_respond` still
returns a complete result and no fault reaches the caller. -/
theorem classifier_failure_degrades_to_neutral
    (classify : String → Except Unit (List Prediction)) (rr rc : Nat)
    (msg : String) (hnb : isBlankText msg = false)
    (herr : classify msg = Except.error ()) :
    detect_emotion classify msg = ⟨"Neutral", 1/2, [⟨"Neutral", 1/2⟩]⟩ ∧
    (analyze_and_respond classify rr rc msg).emotion = "Neutral" ∧
    (analyze_and_respond classify rr rc msg).confidence = 1/2 ∧
    (analyze_and_respond classify rr rc msg).response
      ∈ allowedResponses "Neutral" msg := by
  have hd : detect_emotion classify msg = ⟨"Neutral", 1/2, [⟨"Neutral", 1/2⟩]⟩ := by
    simp [detect_emotion, hnb, herr]
  refine ⟨hd, ?_, ?_, ?_⟩
  · show (detect_emotion classify msg).primary_emotion = "Neutral"
    rw [hd]
  · show (detect_emotion classify msg).confidence = 1/2
    rw [hd]
  · have hm := (generate_response_mem rr rc
      (detect_emotion classify msg).primary_emotion
      (detect_emotion classify msg).confidence msg).1
    have he : (detect_emotion classify msg).primary_emotion = "Neutral" := by
      rw [hd]
    rw [← he]
    exact hm

/-- Witness for C7 at "I feel stuck" with an always-failing classifier. -/
theorem classifier_failure_degrades_to_neutral_witness :
    isBlankText "I feel stuck" = false ∧
    (fun _ : String => (Except.error () : Except Unit (List Prediction)))
      "I feel stuck" = Except.error () ∧
    (detect_emotion (fun _ => Except.error ()) "I feel stuck"
        = ⟨"Neutral", 1/2, [⟨"Neutral", 1/2⟩]⟩ ∧
     (analyze_and_respond (fun _ => Except.error ()) 0 0 "I feel stuck").emotion
        = "Neutral" ∧
     (analyze_and_respond (fun _ => Except.error ()) 0 0 "I feel stuck").confidence
        = 1/2 ∧
     (analyze_and_respond (fun _ => Except.error ()) 0 0 "I feel stuck").response
        ∈ allowedResponses "Neutral" "I feel stuck") :=
  ⟨by decide, rfl,
    classifier_failure_degrades_to_neutral _ 0 0 "I feel stuck" (by decide) rfl⟩

/-- C8: two runs of the pipeline on identical text agree on `emotion`,
`confidence`, `all_emotions` and `needs_escalation` whatever the random
draws; the response and coping texts can vary between runs only within the
fixed allowed template sets for the detected emotion. -/
theorem analyze_deterministic_core_templated_text
    (classify : String → Except Unit (List Prediction))
    (rr₁ rc₁ rr₂ rc₂ : Nat) (msg : String) :
    (analyze_and_respond classify rr₁ rc₁ msg).emotion
      = (analyze_and_respond classify rr₂ rc₂ msg).emotion ∧
    (analyze_and_respond classify rr₁ rc₁ msg).confidence
      = (analyze_and_respond classify rr₂ rc₂ msg).confidence ∧
    (analyze_and_respond classify rr₁ rc₁ msg).all_emotions
      = (analyze_and_respond classify rr₂ rc₂ msg).all_emotions ∧
    (analyze_and_respond classify rr₁ rc₁ msg).needs_escalation
      = (analyze_and_respond classify rr₂ rc₂ msg).needs_escalation ∧
    (analyze_and_respond classify rr₁ rc₁ msg).response
      ∈ allowedResponses (analyze_and_respond classify rr₁ rc₁ msg).emotion msg ∧
    (analyze_and_respond classify rr₂ rc₂ msg).response
      ∈ allowedResponses (analyze_and_respond classify rr₂ rc₂ msg).emotion msg ∧
    (analyze_and_respond classify rr₁ rc₁ msg).coping_strategy
      ∈ allowedCopings (analyze_and_respond classify rr₁ rc₁ msg).emotion msg ∧
    (analyze_and_respond classify rr₂ rc₂ msg).coping_strategy
      ∈ allowedCopings (analyze_and_respond classify rr₂ rc₂ msg).emotion msg := by
  refine ⟨rfl, rfl, rfl, ?_, ?_, ?_, ?_, ?_⟩
  · show (generate_response rr₁ rc₁ _ _ msg).needs_escalation
      = (generate_response rr₂ rc₂ _ _ msg).needs_escalation
    rw [generate_response_escalation, generate_response_escalation]
  · exact (generate_response_mem rr₁ rc₁ _ _ msg).1
  · exact (generate_response_mem rr₂ rc₂ _ _ msg).1
  · exact (generate_response_mem rr₁ rc₁ _ _ msg).2
  · exact (generate_response_mem rr₂ rc₂ _ _ msg).2

theorem foldl_pick_zero (l : List ScoredEmotion) :
    ∀ b : ScoredEmotion, b.rawScore = 0 → (∀ s ∈ l, s.rawScore = 0) →
      (l.foldl (fun best s => if best.rawScore < s.rawScore then s else best)
        b).rawScore = 0 := by
  induction l with
  | nil => intro b hb _; simpa using hb
  | cons s t ih =>
    intro b hb h
    rw [List.foldl_cons]
    refine ih _ ?_ (fun x hx => h x (List.mem_cons_of_mem _ hx))
    by_cases hlt : b.rawScore < s.rawScore
    · rw [if_pos hlt]; exact h s (List.mem_cons_self s t)
    · rw [if_neg hlt]; exact hb

theorem pickPrimary_zero (l : List ScoredEmotion)
    (h : ∀ s ∈ l, s.rawScore = 0) : (pickPrimary l).rawScore = 0 :=
  foldl_pick_zero l _ rfl h

/-- C3: for every text with zero matching phrases across all emotions (and
no crisis phrase, which would take absolute priority), the spec-modelled
analysis short-circuits to the Neutral result: `emotion = "Neutral"`,
`confidence = 0.5`, `allEmotions = []` (and `intensity = 0`). -/
theorem zero_matches_neutral_result (cfg : SpecConfig) (text : String)
    (hnc : isCrisis cfg.crisisLexicon text = false)
    (hz : ∀ e ∈ cfg.lexicon,
      ∀ p ∈ e.2.strong ++ e.2.medium ++ e.2.weak ++ e.2.context,
        strHasSub (pyLower text) p = false) :
    (analyzeSpec cfg text).emotion = "Neutral" ∧
    (analyzeSpec cfg text).confidence = 1/2 ∧
    (analyzeSpec cfg text).allEmotions = [] ∧
    (analyzeSpec cfg text).intensity = 0 := by
  have hall : ∀ s ∈ scoreEmotions cfg.lexicon text, s.rawScore = 0 := by
    intro s hs
    rw [scoreEmotions] at hs
    simp only [List.mem_map] at hs
    obtain ⟨e, he, rfl⟩ := hs
    have hm : ∀ phrases, (∀ p ∈ phrases, p ∈ e.2.strong ++ e.2.medium ++ e.2.weak ++ e.2.context) →
        matchCount phrases (pyLower text) = 0 := by
      intro phrases hsub
      rw [matchCount, List.length_eq_zero, List.filter_eq_nil_iff]
      intro p hp
      simp [hz e he p (hsub p hp)]
    have h1 := hm e.2.strong (by intro p hp; simp [hp])
    have h2 := hm e.2.medium (by intro p hp; simp [hp])
    have h3 := hm e.2.weak (by intro p hp; simp [hp])
    have h4 := hm e.2.context (by intro p hp; simp [hp])
    simp [tierScore, h1, h2, h3, h4]
  have hprim : (pickPrimary (scoreEmotions cfg.lexicon text)).rawScore = 0 :=
    pickPrimary_zero _ hall
  refine ⟨?_, ?_, ?_, ?_⟩ <;> simp [analyzeSpec, hnc, hprim]

/-- Witness for C3: the sample configuration on "the weather is mild today"
(no lexicon phrase and no crisis phrase matches). -/
theorem zero_matches_neutral_result_witness :
    isCrisis sampleConfig.crisisLexicon "the weather is mild today" = false ∧
    (∀ e ∈ sampleConfig.lexicon,
      ∀ p ∈ e.2.strong ++ e.2.medium ++ e.2.weak ++ e.2.context,
        strHasSub (pyLower "the weather is mild today") p = false) ∧
    ((analyzeSpec sampleConfig "the weather is mild today").emotion = "Neutral" ∧
     (analyzeSpec sampleConfig "the weather is mild today").confidence = 1/2 ∧
     (analyzeSpec sampleConfig "the weather is mild today").allEmotions = [] ∧
     (analyzeSpec sampleConfig "the weather is mild today").intensity = 0) :=
  ⟨by decide, by decide,
    zero_matches_neutral_result sampleConfig _ (by decide) (by decide)⟩

/-- C5: for every non-crisis, non-neutral result of the spec-modelled
engine, the returned confidence equals the saturating map of the primary
raw score, is bounded within [0, 0.98], and that map is monotonically
non-decreasing in the raw evidence score. -/
theorem confidence_monotone_and_bounded (cfg : SpecConfig) (text : String)
    (hnc : isCrisis cfg.crisisLexicon text = false)
    (hnz : (pickPrimary (scoreEmotions cfg.lexicon text)).rawScore ≠ 0) :
    0 ≤ (analyzeSpec cfg text).confidence ∧
    (analyzeSpec cfg text).confidence ≤ 98/100 ∧
    (analyzeSpec cfg text).confidence
      = specConfidence (pickPrimary (scoreEmotions cfg.lexicon text)).rawScore ∧
    (∀ r₁ r₂ : Nat, r₁ ≤ r₂ → specConfidence r₁ ≤ specConfidence r₂) := by
  have hconf : (analyzeSpec cfg text).confidence
      = specConfidence (pickPrimary (scoreEmotions cfg.lexicon text)).rawScore := by
    simp [analyzeSpec, hnc, hnz]
  have hlow : ∀ r : Nat, 0 ≤ specConfidence r := by
    intro r
    rw [specConfidence]
    refine le_min (by positivity) (by norm_num)
  have hup : ∀ r : Nat, specConfidence r ≤ 98/100 := fun r => min_le_right _ _
  refine ⟨hconf ▸ hlow _, hconf ▸ hup _, hconf, ?_⟩
  intro r₁ r₂ hr
  rw [specConfidence, specConfidence]
  refine min_le_min (add_le_add_left ?_ _) le_rfl
  exact mul_le_mul_of_nonneg_right (Nat.cast_le.2 hr) (by norm_num)

/-- Witness for C5: the spec's own scenario "I am furious and livid about
this" on the sample configuration (primary Anger, rawScore 6 ≠ 0). -/
theorem confidence_monotone_and_bounded_witness :
    isCrisis sampleConfig.crisisLexicon "I am furious and livid about this" = false ∧
    (pickPrimary (scoreEmotions sampleConfig.lexicon
        "I am furious and livid about this")).rawScore ≠ 0 ∧
    (0 ≤ (analyzeSpec sampleConfig "I am furious and livid about this").confidence ∧
     (analyzeSpec sampleConfig "I am furious and livid about this").confidence ≤ 98/100 ∧
     (analyzeSpec sampleConfig "I am furious and livid about this").confidence
       = specConfidence (pickPrimary (scoreEmotions sampleConfig.lexicon
           "I am furious and livid about this")).rawScore ∧
     (∀ r₁ r₂ : Nat, r₁ ≤ r₂ → specConfidence r₁ ≤ specConfidence r₂)) :=
  ⟨by decide, by decide,
    confidence_monotone_and_bounded sampleConfig _ (by decide) (by decide)⟩

/-- C6: in the spec-modelled engine, a non-crisis input whose detected
intensity is weak — equivalently whose primary raw score is below the
threshold 2 — yields no coping-strategy suggestion. -/
theorem weak_evidence_no_coping (cfg : SpecConfig) (text : String)
    (hnc : isCrisis cfg.crisisLexicon text = false)
    (hw : intensityTier (pickPrimary (scoreEmotions cfg.lexicon text)).rawScore
        = "weak" ∨
      (pickPrimary (scoreEmotions cfg.lexicon text)).rawScore < 2) :
    (analyzeSpec cfg text).copingStrategy = none := by
  have hlt : (pickPrimary (scoreEmotions cfg.lexicon text)).rawScore < 2 := by
    rcases hw with h | h
    · by_contra hge
      rw [intensityTier, if_neg hge] at h
      by_cases h5 : (pickPrimary (scoreEmotions cfg.lexicon text)).rawScore < 5
      · rw [if_pos h5] at h; exact absurd h (by decide)
      · rw [if_neg h5] at h; exact absurd h (by decide)
    · exact h
  have hcop : specCoping cfg (pickPrimary (scoreEmotions cfg.lexicon text)).label
      (pickPrimary (scoreEmotions cfg.lexicon text)).rawScore = none := by
    rw [specCoping, if_pos hlt]
  by_cases hz : (pickPrimary (scoreEmotions cfg.lexicon text)).rawScore = 0
  · simp [analyzeSpec, hnc, hz]
  · simp [analyzeSpec, hnc, hz, hcop]

/-- Witness for C6: "I feel blue today" on the sample configuration (one
weak Sadness phrase, rawScore 1, intensity weak). -/
theorem weak_evidence_no_coping_witness :
    isCrisis sampleConfig.crisisLexicon "I feel blue today" = false ∧
    (intensityTier (pickPrimary (scoreEmotions sampleConfig.lexicon
        "I feel blue today")).rawScore = "weak" ∨
     (pickPrimary (scoreEmotions sampleConfig.lexicon
        "I feel blue today")).rawScore < 2) ∧
    (analyzeSpec sampleConfig "I feel blue today").copingStrategy = none :=
  ⟨by decide, by decide,
    weak_evidence_no_coping sampleConfig _ (by decide) (by decide)⟩

theorem normalizedEmotions_sorted_top3 (scored : List ScoredEmotion) :
    (normalizedEmotions scored).length ≤ 3 ∧
    (normalizedEmotions scored).Pairwise
      (fun a b : String × ℚ => b.2 ≤ a.2) := by
  constructor
  · exact List.length_take_le _ _
  · refine List.Pairwise.sublist (List.take_sublist _ _) ?_
    refine List.Pairwise.map _ ?_
      (List.sorted_mergeSort ?_ ?_ (scored.filter (fun s => decide (0 < s.rawScore))))
    · intro a b hab
      have hba : b.rawScore ≤ a.rawScore := by simpa using hab
      have hc : (b.rawScore : ℚ) ≤ (a.rawScore : ℚ) := Nat.cast_le.2 hba
      show (b.rawScore : ℚ) / 10 ≤ (a.rawScore : ℚ) / 10
      gcongr
    · intro a b c hab hbc
      simp only [decide_eq_true_eq] at *
      exact le_trans hbc hab
    · intro a b
      simpa using le_total b.rawScore a.rawScore

/-- C9: for every configuration and input, the `allEmotions` sequence of
the spec-modelled analysis result is sorted in descending order of
(normalized) score and has length at most 3. -/
theorem all_emotions_sorted_top3 (cfg : SpecConfig) (text : String) :
    (analyzeSpec cfg text).allEmotions.length ≤ 3 ∧
    (analyzeSpec cfg text).allEmotions.Pairwise
      (fun a b : String × ℚ => b.2 ≤ a.2) := by
  have hn := normalizedEmotions_sorted_top3 (scoreEmotions cfg.lexicon text)
  by_cases hc : isCrisis cfg.crisisLexicon text
  · simp [analyzeSpec, hc]
  · by_cases hz : (pickPrimary (scoreEmotions cfg.lexicon text)).rawScore = 0
    · simp [analyzeSpec, hc, hz]
    · simpa [analyzeSpec, hc, hz] using hn
